import Mathlib

/-!
Verification of the Traunsee pressure-gradient dashboard (`weather_app.py`).

The script is a straight-line pipeline: fetch per-location hourly weather
tables from the Open-Meteo HTTP API, merge them on the timestamp index,
compute derived columns (pressure differences, knot conversion, wind
vectors), and render charts.  We embed the data model and every operation
the claims touch:

* timestamps are integers (hours); a missing cell (pandas `NaN`) is
  `Option.none`; numeric cell values are exact rationals, except for the
  trigonometric wind-vector math which lives over `ℝ`;
* a per-location hourly DataFrame is a `LocTable`: its timestamp index plus
  one `Int → Option ℚ` valuation per fetched column;
* pandas column assignment `df[c] = other[c']` aligns the source series on
  the target index: at a target timestamp the cell is the source value when
  the timestamp is in the source index, `none` otherwise;
* pandas arithmetic on columns is pointwise with `NaN` propagation, which is
  exactly `Option` propagation (`optSub`, `Option.map`);
* the HTTP layer is an oracle: `fetch_openmeteo` consumes the single
  response the one `requests.get` call yields; `requests`'
  `raise_for_status` raises `HTTPError` exactly for status codes in
  `[400, 600)`; a body that is not parseable JSON with an `"hourly"` key is
  `none` (reading it raises, aborting the fetch).
-/

namespace WeatherApp

/-- Hours since an arbitrary epoch; the resolution of the hourly data. -/
abbrev Timestamp := Int

/-- One per-location hourly DataFrame as returned by `fetch_openmeteo`:
the timestamp index and the fetched columns.  A cell holds `none` where the
API delivered a gap (`NaN`). -/
structure LocTable where
  index : List Timestamp
  pressure_msl : Timestamp → Option ℚ
  cloud_cover : Timestamp → Option ℚ
  cloud_cover_low : Timestamp → Option ℚ
  cloud_cover_mid : Timestamp → Option ℚ
  cloud_cover_high : Timestamp → Option ℚ
  wind_speed_10m : Timestamp → Option ℚ
  wind_direction_10m : Timestamp → Option ℚ

/-- The value a series contributes at a timestamp: its cell when the
timestamp is in its index, undefined otherwise.  This is pandas'
index-alignment rule for `df[col] = other[col]`. -/
def seriesAt (index : List Timestamp) (col : Timestamp → Option ℚ)
    (t : Timestamp) : Option ℚ :=
  if t ∈ index then col t else none

/-- Pointwise subtraction of two (possibly missing) cells; `NaN`
propagates: the result exists only when both operands do. -/
def optSub : Option ℚ → Option ℚ → Option ℚ
  | some a, some b => some (a - b)
  | _, _ => none

/-- m/s → knots factor used on line 168 of `weather_app.py`. -/
def ktPerMs : ℚ := 1.94384

/-- The merged, timestamp-indexed table built in lines 156–168 of
`weather_app.py`: the Traunkirchen table renamed, with the other locations'
pressure columns assigned onto its index and the derived columns. -/
structure MergedTable where
  index : List Timestamp
  P_T : Timestamp → Option ℚ
  P_G : Timestamp → Option ℚ
  delta_P_TG : Timestamp → Option ℚ
  P_B : Timestamp → Option ℚ
  P_R : Timestamp → Option ℚ
  delta_P_BR : Timestamp → Option ℚ
  cloud_total : Timestamp → Option ℚ
  cloud_low : Timestamp → Option ℚ
  cloud_mid : Timestamp → Option ℚ
  cloud_high : Timestamp → Option ℚ
  wind_speed : Timestamp → Option ℚ
  wind_dir : Timestamp → Option ℚ
  wind_speed_kt : Timestamp → Option ℚ

/-- Lines 156–168 of `weather_app.py`:
`df = dfs["Traunkirchen"].rename(columns={"pressure_msl": "P_T"})`, then
column assignments from the other locations' tables (aligned on `df`'s
index, i.e. Traunkirchen's) and the pointwise derived columns
`delta_P_TG = P_T - P_G`, `delta_P_BR = P_B - P_R`,
`wind_speed_kt = wind_speed * 1.94384`.  Note line 162 copies
`cloud_cover` raw: no `/100*4` rescaling happens in this script. -/
def buildMerged (traun gmunden badIschl ried : LocTable) : MergedTable :=
  let pT := seriesAt traun.index traun.pressure_msl
  let pG := seriesAt gmunden.index gmunden.pressure_msl
  let pB := seriesAt badIschl.index badIschl.pressure_msl
  let pR := seriesAt ried.index ried.pressure_msl
  let ws := seriesAt traun.index traun.wind_speed_10m
  { index := traun.index
    P_T := pT
    P_G := pG
    delta_P_TG := fun t => optSub (pT t) (pG t)
    P_B := pB
    P_R := pR
    delta_P_BR := fun t => optSub (pB t) (pR t)
    cloud_total := seriesAt traun.index traun.cloud_cover
    cloud_low := seriesAt traun.index traun.cloud_cover_low
    cloud_mid := seriesAt traun.index traun.cloud_cover_mid
    cloud_high := seriesAt traun.index traun.cloud_cover_high
    wind_speed := ws
    wind_dir := seriesAt traun.index traun.wind_direction_10m
    wind_speed_kt := fun t => Option.map (fun w => w * ktPerMs) (ws t) }

/-! ### Endpoint selection (`fetch_openmeteo`, lines 23–28)

Calendar dates are integers (days since an arbitrary epoch); `date.today()`
is a parameter. -/

/-- The historical-archive endpoint URL. -/
def archiveUrl : String := "https://archive-api.open-meteo.com/v1/archive"

/-- The forecast endpoint URL. -/
def forecastUrl : String := "https://api.open-meteo.com/v1/forecast"

/-- Lines 24–28 of `weather_app.py`: `if end <= today:` use the archive
endpoint, `else` the forecast endpoint. -/
def selectUrl (today endDate : Int) : String :=
  if endDate ≤ today then archiveUrl else forecastUrl

/-! ### Fetch response handling (`fetch_openmeteo`, lines 40–48)

`r = requests.get(url, params)` is one network call; its outcome is an
`HttpResult`.  `r.raise_for_status()` raises `HTTPError` exactly when the
status code lies in `[400, 600)` (4xx client / 5xx server errors).
`r.json()["hourly"]` is a parsed payload of parallel arrays; `none` stands
for a body on which that expression raises. -/

/-- The `"hourly"` object of a successful JSON response: a `time` array and
one parallel value array per requested field. -/
structure HourlyPayload where
  time : List Timestamp
  pressure_msl : List (Option ℚ)
  cloud_cover : List (Option ℚ)
  cloud_cover_low : List (Option ℚ)
  cloud_cover_mid : List (Option ℚ)
  cloud_cover_high : List (Option ℚ)
  wind_speed_10m : List (Option ℚ)
  wind_direction_10m : List (Option ℚ)

/-- The outcome of the single `requests.get` call: a transport-level
failure (DNS, connection, timeout — `requests` raises before a response
exists), or a response with a status code and a body. -/
inductive HttpResult where
  | transportError : HttpResult
  | response : Nat → Option HourlyPayload → HttpResult

/-- Column built from the parallel arrays `time` / `vals`: the value paired
with the first occurrence of the timestamp. -/
def colOf (times : List Timestamp) (vals : List (Option ℚ))
    (t : Timestamp) : Option ℚ :=
  match (times.zip vals).find? (fun q => decide (q.1 = t)) with
  | some q => q.2
  | none => none

/-- `pd.DataFrame(data["hourly"])` followed by tz-localising `time` and
`set_index("time")`: the payload becomes a timestamp-indexed table. -/
def payloadToTable (p : HourlyPayload) : LocTable where
  index := p.time
  pressure_msl := colOf p.time p.pressure_msl
  cloud_cover := colOf p.time p.cloud_cover
  cloud_cover_low := colOf p.time p.cloud_cover_low
  cloud_cover_mid := colOf p.time p.cloud_cover_mid
  cloud_cover_high := colOf p.time p.cloud_cover_high
  wind_speed_10m := colOf p.time p.wind_speed_10m
  wind_direction_10m := colOf p.time p.wind_direction_10m

/-- `fetch_openmeteo` (lines 23–48) against an HTTP oracle: select the
endpoint from the range's end date, issue the one `requests.get` call,
abort with an error on a transport failure, on `raise_for_status` (status
in `[400, 600)`), or on an unreadable body; otherwise return the table.
There is no retry: `http` is applied exactly once. -/
def fetch_openmeteo (today endDate : Int) (http : String → HttpResult) :
    Except String LocTable :=
  match http (selectUrl today endDate) with
  | .transportError => .error "requests.get raised"
  | .response status body =>
    if 400 ≤ status ∧ status < 600 then .error "HTTPError"
    else
      match body with
      | none => .error "no hourly JSON"
      | some p => .ok (payloadToTable p)

/-! ### The render prologue (lines 141–153)

After the two `st.date_input` widgets, the script validates the range:
`if end_date < start_date: st.error(...); st.stop()` — `st.stop()` ends the
render, so the fetch loop below it never runs.  Otherwise it issues one
`fetch_openmeteo` call per entry of `coords`. -/

/-- The fixed location set of lines 13–18 (name, latitude, longitude). -/
def coords : List (String × ℚ × ℚ) :=
  [("Traunkirchen", 47.993, 13.745),
   ("Gmunden", 47.918, 13.799),
   ("Bad_Ischl", 47.714, 13.632),
   ("Ried", 48.198, 13.490)]

/-- What a render pass does with the date inputs: halt with the validation
message, or proceed to the per-location fetch calls. -/
inductive RenderOutcome where
  | halted : String → RenderOutcome
  | fetching : List (String × ℚ × ℚ) → RenderOutcome

/-- Lines 146–153 of `weather_app.py`: the date-order guard, then the fetch
loop over `coords`. -/
def renderDataLoad (startDate endDate : Int) : RenderOutcome :=
  if endDate < startDate then .halted "Enddatum muss nach Startdatum sein"
  else .fetching coords

/-- The network calls a render outcome issues: none when the guard halted
the script, one per location otherwise. -/
def networkCalls : RenderOutcome → List (String × ℚ × ℚ)
  | .halted _ => []
  | .fetching cs => cs

/-! ### Wind vectors and the grid wind-field fetch (lines 60–104)

`wind_vector` turns floating-point trigonometry into real-number
trigonometry; speeds and directions in this part live in `ℝ`. -/

/-- `np.radians`: degrees to radians. -/
noncomputable def radians (d : ℝ) : ℝ := d * (Real.pi / 180)

/-- `wind_vector(speed, direction_deg)` (lines 60–65): the direction is
meteorological ("from where"), hence the minus signs:
`u = -speed * sin(rad)`, `v = -speed * cos(rad)`. -/
noncomputable def wind_vector (speed direction_deg : ℝ) : ℝ × ℝ :=
  (-speed * Real.sin (radians direction_deg),
   -speed * Real.cos (radians direction_deg))

/-- `math.atan2(y, x)` over the reals, as the argument of the complex
number `x + y·i`, valued in `(-π, π]` (with `atan2 0 0 = 0`). -/
noncomputable def atan2 (y x : ℝ) : ℝ :=
  Complex.arg (Complex.ofReal x + Complex.ofReal y * Complex.I)

/-- The direction-recovery formula of the spec's testable property:
`atan2(-u, -v)` converted to degrees and normalised into `[0, 360)`. -/
noncomputable def recoverDirection (u v : ℝ) : ℝ :=
  let d := atan2 (-u) (-v) * (180 / Real.pi)
  if d < 0 then d + 360 else d

/-- One record of a grid point's fetched hourly wind series. -/
structure WindRecord where
  time : Timestamp
  wind_speed_10m : ℝ
  wind_direction_10m : ℝ

/-- Outcome of the per-grid-point `try` block's HTTP request and parsing:
any raised exception, or the parsed hourly series. -/
inductive GridFetchResult where
  | failure : GridFetchResult
  | success : List WindRecord → GridFetchResult

/-- `df["time"].min()` over the fetched series. -/
def minTime : List WindRecord → Option Timestamp
  | [] => none
  | r :: rs =>
    match minTime rs with
    | none => some r.time
    | some m => some (min r.time m)

/-- One row of the DataFrame `fetch_forecast_grid` returns. -/
structure WindRow where
  lat : ℚ
  lon : ℚ
  u : ℝ
  v : ℝ
  speed : ℝ
  direction : ℝ
  time : Timestamp

/-- The body of the loop of `fetch_forecast_grid` (lines 70–102) for one
grid point: on any exception the point is logged and skipped (`none`);
otherwise `selected_time = df["time"].min() + forecast_hour` hours, the
series is filtered to that exact timestamp, and — when a record matches —
a row is built from the first match (`iloc[0]`) with `wind_vector`
components.  An empty series yields no row (`min` of nothing matches no
record). -/
noncomputable def processPoint (lat lon : ℚ) (forecast_hour : Int)
    (result : GridFetchResult) : Option WindRow :=
  match result with
  | .failure => none
  | .success records =>
    match minTime records with
    | none => none
    | some m =>
      let selected_time := m + forecast_hour
      match records.filter (fun r => decide (r.time = selected_time)) with
      | [] => none
      | r :: _ =>
        some { lat := lat, lon := lon
               u := (wind_vector r.wind_speed_10m r.wind_direction_10m).1
               v := (wind_vector r.wind_speed_10m r.wind_direction_10m).2
               speed := r.wind_speed_10m
               direction := r.wind_direction_10m
               time := selected_time }

/-- `fetch_forecast_grid(grid_coords, forecast_hour)` against a per-point
HTTP oracle: every grid point is processed in order; failed or
non-matching points contribute nothing and never abort the loop. -/
noncomputable def fetch_forecast_grid (grid : List (ℚ × ℚ))
    (forecast_hour : Int) (http : ℚ → ℚ → GridFetchResult) : List WindRow :=
  grid.filterMap (fun p => processPoint p.1 p.2 forecast_hour (http p.1 p.2))

/-- What the wind-map section (lines 378–382) shows: `st.warning` when the
grid fetch came back empty, the rendered map otherwise. -/
inductive WindSectionUI where
  | emptyWarning : WindSectionUI
  | windMap : List WindRow → WindSectionUI

/-- Lines 378–382: `if df_wind.empty: st.warning(...) else: plot`. -/
def renderWindSection (df_wind : List WindRow) : WindSectionUI :=
  if df_wind.isEmpty then .emptyWarning else .windMap df_wind

/-! ### Concrete sample data for witnesses -/

/-- A sample Traunkirchen table: two hours of data, wind speed missing at
hour 1. -/
def tTraunkirchen : LocTable where
  index := [0, 1]
  pressure_msl := fun t => if t = 0 then some 1013 else some 1012
  cloud_cover := fun t => if t = 0 then some 50 else some 75
  cloud_cover_low := fun _ => some 10
  cloud_cover_mid := fun _ => some 20
  cloud_cover_high := fun _ => some 30
  wind_speed_10m := fun t => if t = 0 then some 10 else none
  wind_direction_10m := fun _ => some 180

/-- A sample Gmunden table: shares hour 0 with Traunkirchen and has an
hour 2 that Traunkirchen lacks. -/
def tGmunden : LocTable where
  index := [0, 2]
  pressure_msl := fun t => if t = 0 then some 1010 else some 1009
  cloud_cover := fun _ => none
  cloud_cover_low := fun _ => none
  cloud_cover_mid := fun _ => none
  cloud_cover_high := fun _ => none
  wind_speed_10m := fun _ => none
  wind_direction_10m := fun _ => none

/-- A sample Bad Ischl table with a missing pressure cell at hour 1. -/
def tBadIschl : LocTable where
  index := [0, 1]
  pressure_msl := fun t => if t = 0 then some 1008 else none
  cloud_cover := fun _ => none
  cloud_cover_low := fun _ => none
  cloud_cover_mid := fun _ => none
  cloud_cover_high := fun _ => none
  wind_speed_10m := fun _ => none
  wind_direction_10m := fun _ => none

/-- A sample Ried table covering only hour 1. -/
def tRied : LocTable where
  index := [1]
  pressure_msl := fun _ => some 1005
  cloud_cover := fun _ => none
  cloud_cover_low := fun _ => none
  cloud_cover_mid := fun _ => none
  cloud_cover_high := fun _ => none
  wind_speed_10m := fun _ => none
  wind_direction_10m := fun _ => none

/-- A one-hour sample payload for a successful fetch response. -/
def payloadW : HourlyPayload where
  time := [0]
  pressure_msl := [some 1013]
  cloud_cover := [some 50]
  cloud_cover_low := [some 10]
  cloud_cover_mid := [some 20]
  cloud_cover_high := [some 30]
  wind_speed_10m := [some 10]
  wind_direction_10m := [some 180]

/-- A grid-point oracle answering every point with a one-record series:
time 5, speed 3 m/s, direction 90°. -/
def httpW : ℚ → ℚ → GridFetchResult := fun _ _ => .success [⟨5, 3, 90⟩]

/-- The row `fetch_forecast_grid` produces from `httpW` at the point
(1, 2) with `forecast_hour = 0`. -/
noncomputable def rowW : WindRow :=
  ⟨1, 2, (wind_vector 3 90).1, (wind_vector 3 90).2, 3, 90, 5⟩

/-! ## Helper lemmas -/

/-- A pointwise difference cell exists exactly when both operand cells
exist. -/
theorem optSub_isSome (a b : Option ℚ) :
    (optSub a b).isSome = (a.isSome && b.isSome) := by
  cases a <;> cases b <;> rfl

/-- At a timestamp of its own index, a series contributes its cell. -/
theorem seriesAt_mem (index : List Timestamp) (col : Timestamp → Option ℚ)
    (t : Timestamp) (ht : t ∈ index) : seriesAt index col t = col t := by
  simp [seriesAt, ht]

/-! ## Claim theorems -/

/-- Claim C1: on the merged table, `delta_P_TG` at any indexed timestamp
equals the pointwise difference of the Traunkirchen and Gmunden pressure
series, and `delta_P_BR` the difference of the Bad Ischl and Ried pressure
series; each difference cell is defined exactly when both operand cells
are. -/
theorem delta_P_pointwise (traun gmunden badIschl ried : LocTable)
    (t : Timestamp) (ht : t ∈ (buildMerged traun gmunden badIschl ried).index) :
    (buildMerged traun gmunden badIschl ried).delta_P_TG t =
      optSub (traun.pressure_msl t)
        (seriesAt gmunden.index gmunden.pressure_msl t) ∧
    (buildMerged traun gmunden badIschl ried).delta_P_BR t =
      optSub (seriesAt badIschl.index badIschl.pressure_msl t)
        (seriesAt ried.index ried.pressure_msl t) ∧
    ((buildMerged traun gmunden badIschl ried).delta_P_TG t).isSome =
      ((traun.pressure_msl t).isSome &&
       (seriesAt gmunden.index gmunden.pressure_msl t).isSome) ∧
    ((buildMerged traun gmunden badIschl ried).delta_P_BR t).isSome =
      ((seriesAt badIschl.index badIschl.pressure_msl t).isSome &&
       (seriesAt ried.index ried.pressure_msl t).isSome) := by
  have ht' : t ∈ traun.index := ht
  have h1 : (buildMerged traun gmunden badIschl ried).delta_P_TG t =
      optSub (traun.pressure_msl t)
        (seriesAt gmunden.index gmunden.pressure_msl t) := by
    show optSub (seriesAt traun.index traun.pressure_msl t) _ = _
    rw [seriesAt_mem _ _ _ ht']
  have h2 : ((buildMerged traun gmunden badIschl ried).delta_P_BR t).isSome =
      ((seriesAt badIschl.index badIschl.pressure_msl t).isSome &&
       (seriesAt ried.index ried.pressure_msl t).isSome) := by
    show (optSub (seriesAt badIschl.index badIschl.pressure_msl t)
      (seriesAt ried.index ried.pressure_msl t)).isSome = _
    rw [optSub_isSome]
  exact ⟨h1, rfl, by rw [h1, optSub_isSome], h2⟩

/-- Witness for C1 on the sample tables at hour 0: the difference columns
evaluate pointwise (ΔP_TG = 1013 − 1010; ΔP_BR missing since Ried has no
hour 0). -/
theorem delta_P_pointwise_witness :
    ((0 : Timestamp) ∈ (buildMerged tTraunkirchen tGmunden tBadIschl tRied).index) ∧
    (buildMerged tTraunkirchen tGmunden tBadIschl tRied).delta_P_TG 0 =
      optSub (tTraunkirchen.pressure_msl 0)
        (seriesAt tGmunden.index tGmunden.pressure_msl 0) ∧
    (buildMerged tTraunkirchen tGmunden tBadIschl tRied).delta_P_BR 0 =
      optSub (seriesAt tBadIschl.index tBadIschl.pressure_msl 0)
        (seriesAt tRied.index tRied.pressure_msl 0) :=
  ⟨by decide,
   (delta_P_pointwise tTraunkirchen tGmunden tBadIschl tRied 0 (by decide)).1,
   (delta_P_pointwise tTraunkirchen tGmunden tBadIschl tRied 0 (by decide)).2.1⟩

/-- Claim C2: the fetcher picks the historical-archive URL exactly when
the range's end date is on or before today, and the forecast URL exactly
when it is after today; in particular end = yesterday selects the archive
and end = today + 2 the forecast (the start date plays no role). -/
theorem endpoint_selection (today _startDate endDate : Int) :
    (selectUrl today endDate = archiveUrl ↔ endDate ≤ today) ∧
    (selectUrl today endDate = forecastUrl ↔ today < endDate) ∧
    selectUrl today (today - 1) = archiveUrl ∧
    selectUrl today (today + 2) = forecastUrl := by
  have hne : archiveUrl ≠ forecastUrl := by decide
  have harch : ∀ e : Int, e ≤ today → selectUrl today e = archiveUrl :=
    fun e he => if_pos he
  have hfore : ∀ e : Int, ¬ e ≤ today → selectUrl today e = forecastUrl :=
    fun e he => if_neg he
  refine ⟨⟨fun h => ?_, harch endDate⟩,
          ⟨fun h => ?_, fun h => hfore endDate (not_le.mpr h)⟩,
          harch _ (by omega), hfore _ (by omega)⟩
  · by_contra hc
    rw [hfore endDate hc] at h
    exact hne h.symm
  · by_cases hc : endDate ≤ today
    · rw [harch endDate hc] at h
      exact absurd h hne
    · exact not_le.mp hc

/-- Witness for C2 at concrete dates (today = 100): end 99 and end 100 hit
the archive endpoint, end 102 the forecast endpoint. -/
theorem endpoint_selection_witness :
    selectUrl 100 99 = archiveUrl ∧
    selectUrl 100 100 = archiveUrl ∧
    selectUrl 100 102 = forecastUrl :=
  ⟨(endpoint_selection 100 99 99).1.mpr (by omega),
   (endpoint_selection 100 100 100).1.mpr (by omega),
   (endpoint_selection 100 100 102).2.1.mpr (by omega)⟩

/-- Claim C3 (code bug): line 162 copies `cloud_cover` into `cloud_total`
raw — an input of 50 percent yields a stored value of 50, not the 2.0 the
`/100*4` Okta/2 convention (which this script's own axis labels and the
cloud-stack 0–4 axis range presuppose) would give. -/
theorem cloud_total_raw_percent :
    (buildMerged tTraunkirchen tGmunden tBadIschl tRied).cloud_total 0 = some 50 ∧
    (50 : ℚ) / 100 * 4 = 2 ∧
    (buildMerged tTraunkirchen tGmunden tBadIschl tRied).cloud_total 0 ≠ some 2 := by
  refine ⟨by decide, by norm_num, by decide⟩

/-- Claim C5: the merged table's `wind_speed_kt` cell is the wind-speed
cell times 1.94384, and dividing it by 1.94384 recovers the original m/s
value exactly (exact rational arithmetic). -/
theorem wind_speed_kt_roundtrip (traun gmunden badIschl ried : LocTable)
    (t : Timestamp) (w : ℚ)
    (hw : seriesAt traun.index traun.wind_speed_10m t = some w) :
    (buildMerged traun gmunden badIschl ried).wind_speed_kt t =
      some (w * 1.94384) ∧
    Option.map (fun x => x / 1.94384)
      ((buildMerged traun gmunden badIschl ried).wind_speed_kt t) = some w := by
  have h1 : (buildMerged traun gmunden badIschl ried).wind_speed_kt t =
      some (w * ktPerMs) := by
    show Option.map _ (seriesAt traun.index traun.wind_speed_10m t) = _
    rw [hw]
    rfl
  have hkt : ktPerMs = 1.94384 := rfl
  refine ⟨by rw [h1, hkt], ?_⟩
  rw [h1, hkt]
  show some (w * 1.94384 / 1.94384) = some w
  rw [mul_div_cancel_right₀ w (by norm_num : (1.94384 : ℚ) ≠ 0)]

/-- Witness for C5 on the sample tables at hour 0 (wind speed 10 m/s). -/
theorem wind_speed_kt_roundtrip_witness :
    (buildMerged tTraunkirchen tGmunden tBadIschl tRied).wind_speed_kt 0 =
      some (10 * 1.94384) ∧
    Option.map (fun x => x / 1.94384)
      ((buildMerged tTraunkirchen tGmunden tBadIschl tRied).wind_speed_kt 0) =
      some 10 :=
  wind_speed_kt_roundtrip tTraunkirchen tGmunden tBadIschl tRied 0 10 (by decide)

/-- Claim C6: a range with the end date strictly before the start date
halts the render with the validation message and issues no network call;
otherwise (end ≥ start, equality included) the script proceeds to the four
per-location fetches. -/
theorem date_range_guard (startDate endDate : Int) :
    (endDate < startDate →
      renderDataLoad startDate endDate =
        .halted "Enddatum muss nach Startdatum sein" ∧
      networkCalls (renderDataLoad startDate endDate) = []) ∧
    (startDate ≤ endDate →
      renderDataLoad startDate endDate = .fetching coords ∧
      networkCalls (renderDataLoad startDate endDate) = coords ∧
      coords.length = 4) := by
  constructor
  · intro h
    rw [renderDataLoad, if_pos h]
    exact ⟨rfl, rfl⟩
  · intro h
    rw [renderDataLoad, if_neg (not_lt.mpr h)]
    exact ⟨rfl, rfl, rfl⟩

/-- Witness for C6 at the ranges (5, 3) — invalid, halts with no calls —
and (3, 3) — a one-day range, which fetches all four locations. -/
theorem date_range_guard_witness :
    (renderDataLoad 5 3 = .halted "Enddatum muss nach Startdatum sein" ∧
     networkCalls (renderDataLoad 5 3) = []) ∧
    (renderDataLoad 3 3 = .fetching coords ∧
     networkCalls (renderDataLoad 3 3) = coords ∧
     coords.length = 4) :=
  ⟨(date_range_guard 5 3).1 (by omega), (date_range_guard 3 3).2 (by omega)⟩

/-- Claim C9: the merged table is anchored on the reference location:
its index is Traunkirchen's, each other location's pressure column is
aligned onto that index (its cell where the timestamp is in that
location's index, missing otherwise), and a timestamp absent from
Traunkirchen's index never appears in the merged table. -/
theorem merge_index_anchored (traun gmunden badIschl ried : LocTable) :
    (buildMerged traun gmunden badIschl ried).index = traun.index ∧
    (∀ t ∈ traun.index,
      (buildMerged traun gmunden badIschl ried).P_G t =
        (if t ∈ gmunden.index then gmunden.pressure_msl t else none) ∧
      (buildMerged traun gmunden badIschl ried).P_B t =
        (if t ∈ badIschl.index then badIschl.pressure_msl t else none) ∧
      (buildMerged traun gmunden badIschl ried).P_R t =
        (if t ∈ ried.index then ried.pressure_msl t else none)) ∧
    (∀ t, t ∉ traun.index →
      t ∉ (buildMerged traun gmunden badIschl ried).index) :=
  ⟨rfl, fun _ _ => ⟨rfl, rfl, rfl⟩, fun _ h => h⟩

/-- Witness for C9 on the sample tables: the merged index is
Traunkirchen's `[0, 1]`, Gmunden's pressure lands at the shared hour 0,
and Gmunden's extra hour 2 is not in the merged table. -/
theorem merge_index_anchored_witness :
    (buildMerged tTraunkirchen tGmunden tBadIschl tRied).index =
      tTraunkirchen.index ∧
    (buildMerged tTraunkirchen tGmunden tBadIschl tRied).P_G 0 =
      (if (0 : Timestamp) ∈ tGmunden.index then tGmunden.pressure_msl 0
       else none) ∧
    (2 : Timestamp) ∉ (buildMerged tTraunkirchen tGmunden tBadIschl tRied).index :=
  ⟨(merge_index_anchored tTraunkirchen tGmunden tBadIschl tRied).1,
   ((merge_index_anchored tTraunkirchen tGmunden tBadIschl tRied).2.1 0
     (by decide)).1,
   (merge_index_anchored tTraunkirchen tGmunden tBadIschl tRied).2.2 2
     (by decide)⟩

/-- Claim C7 (amended): a transport-level failure of the single
`requests.get` call, or a 4xx/5xx status (the statuses on which
`raise_for_status` raises `HTTPError`), makes `fetch_openmeteo` propagate
an error to the caller — no retry happens and no table is produced. -/
theorem fetch_abort_on_http_error (today endDate : Int)
    (http : String → HttpResult)
    (herr : http (selectUrl today endDate) = .transportError ∨
      ∃ status body, http (selectUrl today endDate) = .response status body ∧
        400 ≤ status ∧ status < 600) :
    ∃ msg, fetch_openmeteo today endDate http = .error msg := by
  rcases herr with h | ⟨status, body, h, h4, h6⟩
  · exact ⟨"requests.get raised", by rw [fetch_openmeteo, h]⟩
  · refine ⟨"HTTPError", ?_⟩
    rw [fetch_openmeteo, h]
    exact if_pos ⟨h4, h6⟩

/-- Witness for C7 at a concrete 404 response: the fetch returns an
error. -/
theorem fetch_abort_on_http_error_witness :
    ∃ msg, fetch_openmeteo 0 0 (fun _ => .response 404 none) = .error msg :=
  fetch_abort_on_http_error 0 0 (fun _ => .response 404 none)
    (Or.inr ⟨404, none, rfl, by omega, by omega⟩)

/-- Counterexample to C7 as stated: a status of 300 is not 2xx, yet
`raise_for_status` does not raise on it — with a readable body the fetch
returns a table instead of propagating an error. -/
theorem fetch_not_aborted_on_status_300 :
    ¬ (200 ≤ 300 ∧ 300 < 300) ∧
    fetch_openmeteo 0 0 (fun _ => .response 300 (some payloadW)) =
      .ok (payloadToTable payloadW) :=
  ⟨by omega, rfl⟩

/-- Claim C8: in the grid wind-field fetch a failing grid point is skipped
— the batch result is exactly the concatenation of what the surrounding
points produce — and the caller's wind-map section warns precisely when
the result collection is empty, rendering the map otherwise. -/
theorem grid_error_skip (g1 g2 : List (ℚ × ℚ)) (p : ℚ × ℚ)
    (forecast_hour : Int) (http : ℚ → ℚ → GridFetchResult)
    (hfail : http p.1 p.2 = .failure) :
    fetch_forecast_grid (g1 ++ p :: g2) forecast_hour http =
      fetch_forecast_grid g1 forecast_hour http ++
        fetch_forecast_grid g2 forecast_hour http ∧
    (∀ rows : List WindRow, renderWindSection rows = .emptyWarning ↔ rows = []) ∧
    (∀ rows : List WindRow, rows ≠ [] →
      renderWindSection rows = .windMap rows) := by
  refine ⟨?_, ?_, ?_⟩
  · unfold fetch_forecast_grid
    rw [List.filterMap_append, List.filterMap_cons, hfail]
    simp [processPoint]
  · intro rows
    cases rows <;> simp [renderWindSection]
  · intro rows hne
    cases rows with
    | nil => exact absurd rfl hne
    | cons a as => simp [renderWindSection]

/-- Witness for C8: a one-point grid whose only point fails yields the
empty concatenation, and the empty result triggers the warning branch. -/
theorem grid_error_skip_witness :
    fetch_forecast_grid ([] ++ ((1 : ℚ), (2 : ℚ)) :: []) 0 (fun _ _ => .failure) =
      fetch_forecast_grid [] 0 (fun _ _ => .failure) ++
        fetch_forecast_grid [] 0 (fun _ _ => .failure) ∧
    (renderWindSection [] = .emptyWarning ↔ ([] : List WindRow) = []) :=
  ⟨(grid_error_skip [] [] ((1 : ℚ), (2 : ℚ)) 0 (fun _ _ => .failure) rfl).1,
   (grid_error_skip [] [] ((1 : ℚ), (2 : ℚ)) 0 (fun _ _ => .failure) rfl).2.1 []⟩

/-- Characterisation of a grid point producing a row (helper for C10). -/
theorem processPoint_some (lat lon : ℚ) (h : Int) (res : GridFetchResult)
    (row : WindRow) (hp : processPoint lat lon h res = some row) :
    ∃ records, res = .success records ∧
      (∃ m, minTime records = some m ∧ row.time = m + h) ∧
      ∃ r ∈ records, r.time = row.time ∧
        r.wind_speed_10m = row.speed ∧ r.wind_direction_10m = row.direction ∧
        (row.u, row.v) = wind_vector row.speed row.direction := by
  cases res with
  | failure => simp [processPoint] at hp
  | success records =>
    cases hmin : minTime records with
    | none => simp [processPoint, hmin] at hp
    | some m =>
      cases hfilt : records.filter (fun r => decide (r.time = m + h)) with
      | nil => simp [processPoint, hmin, hfilt] at hp
      | cons r rest =>
        have hrow : row = ⟨lat, lon,
            (wind_vector r.wind_speed_10m r.wind_direction_10m).1,
            (wind_vector r.wind_speed_10m r.wind_direction_10m).2,
            r.wind_speed_10m, r.wind_direction_10m, m + h⟩ := by
          simp [processPoint, hmin, hfilt] at hp
          exact hp.symm
        have hrmem : r ∈ records.filter (fun r => decide (r.time = m + h)) := by
          rw [hfilt]
          exact List.mem_cons_self r rest
        rw [List.mem_filter] at hrmem
        refine ⟨records, rfl, ⟨m, hmin, by rw [hrow]⟩, r, hrmem.1, ?_, ?_, ?_, ?_⟩
        · rw [hrow]
          exact of_decide_eq_true hrmem.2
        · rw [hrow]
        · rw [hrow]
        · rw [hrow]

/-- Claim C10: every row of the grid wind-field result is internally
consistent: its (u, v) pair is `wind_vector` of its own speed and
direction, its time is the minimum timestamp of the originating point's
series plus `forecast_hour` hours, and that series holds a record at
exactly that timestamp (whose speed and direction the row carries). -/
theorem grid_row_consistency (grid : List (ℚ × ℚ)) (forecast_hour : Int)
    (http : ℚ → ℚ → GridFetchResult) (row : WindRow)
    (hrow : row ∈ fetch_forecast_grid grid forecast_hour http) :
    (row.u, row.v) = wind_vector row.speed row.direction ∧
    ∃ p ∈ grid, ∃ records, http p.1 p.2 = .success records ∧
      (∃ m, minTime records = some m ∧ row.time = m + forecast_hour) ∧
      ∃ r ∈ records, r.time = row.time ∧
        r.wind_speed_10m = row.speed ∧ r.wind_direction_10m = row.direction := by
  rcases List.mem_filterMap.1 hrow with ⟨p, hp, hproc⟩
  rcases processPoint_some p.1 p.2 forecast_hour _ row hproc with
    ⟨records, hres, hmin, r, hr, ht, hs, hd, huv⟩
  exact ⟨huv, p, hp, records, hres, hmin, r, hr, ht, hs, hd⟩

/-- Witness for C10 on a one-point grid answered by `httpW`: the produced
row `rowW` satisfies the consistency properties. -/
theorem grid_row_consistency_witness :
    (rowW ∈ fetch_forecast_grid [(1, 2)] 0 httpW) ∧
    ((rowW.u, rowW.v) = wind_vector rowW.speed rowW.direction ∧
     ∃ p ∈ ([(1, 2)] : List (ℚ × ℚ)), ∃ records,
       httpW p.1 p.2 = .success records ∧
       (∃ m, minTime records = some m ∧ rowW.time = m + 0) ∧
       ∃ r ∈ records, r.time = rowW.time ∧
         r.wind_speed_10m = rowW.speed ∧
         r.wind_direction_10m = rowW.direction) :=
  have hm : rowW ∈ fetch_forecast_grid [(1, 2)] 0 httpW := by
    have h : fetch_forecast_grid [(1, 2)] 0 httpW = [rowW] := rfl
    rw [h]
    exact List.mem_singleton.mpr rfl
  ⟨hm, grid_row_consistency [(1, 2)] 0 httpW rowW hm⟩

/-- Scaling both atan2 arguments by a positive factor leaves the angle
unchanged (helper for C4). -/
theorem atan2_pos_scale (S y x : ℝ) (hS : 0 < S) :
    atan2 (S * y) (S * x) = atan2 y x := by
  unfold atan2
  have h1 : (Complex.ofReal (S * x) + Complex.ofReal (S * y) * Complex.I) =
      Complex.ofReal S * (Complex.ofReal x + Complex.ofReal y * Complex.I) := by
    push_cast
    ring
  rw [h1, Complex.arg_real_mul _ hS]

/-- On the principal branch, atan2 of (sin θ, cos θ) is θ (helper for
C4). -/
theorem atan2_sin_cos (θ : ℝ) (h1 : -Real.pi < θ) (h2 : θ ≤ Real.pi) :
    atan2 (Real.sin θ) (Real.cos θ) = θ := by
  unfold atan2
  rw [Complex.ofReal_cos, Complex.ofReal_sin]
  exact Complex.arg_cos_add_sin_mul_I ⟨h1, h2⟩

/-- Claim C4 (amended to strictly positive speed): for S > 0 and
D ∈ [0, 360), recovering the direction from the `wind_vector` components
via `atan2(-u, -v)`, converted to degrees in [0, 360), gives back exactly
D. -/
theorem wind_direction_roundtrip (S D : ℝ) (hS : 0 < S) (hD0 : 0 ≤ D)
    (hD : D < 360) :
    recoverDirection (wind_vector S D).1 (wind_vector S D).2 = D := by
  have hπ := Real.pi_pos
  unfold recoverDirection wind_vector
  simp only [neg_mul, neg_neg]
  rw [show (radians D) = D * (Real.pi / 180) from rfl]
  set θ := D * (Real.pi / 180) with hθ
  rw [atan2_pos_scale S _ _ hS]
  by_cases hcase : D ≤ 180
  · have h1 : -Real.pi < θ := by nlinarith
    have h2 : θ ≤ Real.pi := by nlinarith
    rw [atan2_sin_cos θ h1 h2]
    have hdval : θ * (180 / Real.pi) = D := by
      field_simp [hθ]
    rw [hdval, if_neg (not_lt.mpr hD0)]
  · push_neg at hcase
    have hsin : Real.sin θ = Real.sin (θ - 2 * Real.pi) :=
      (Real.sin_sub_two_pi θ).symm
    have hcos : Real.cos θ = Real.cos (θ - 2 * Real.pi) :=
      (Real.cos_sub_two_pi θ).symm
    rw [hsin, hcos]
    have h1 : -Real.pi < θ - 2 * Real.pi := by nlinarith
    have h2 : θ - 2 * Real.pi ≤ Real.pi := by nlinarith
    rw [atan2_sin_cos _ h1 h2]
    have hdval : (θ - 2 * Real.pi) * (180 / Real.pi) = D - 360 := by
      field_simp [hθ]
      ring
    rw [hdval, if_pos (by linarith)]
    ring

/-- Witness for C4 at S = 3, D = 250.5: the recovered direction is exactly
250.5. -/
theorem wind_direction_roundtrip_witness :
    recoverDirection (wind_vector 3 250.5).1 (wind_vector 3 250.5).2 = 250.5 :=
  wind_direction_roundtrip 3 250.5 (by norm_num) (by norm_num) (by norm_num)

/-- Counterexample to C4 as stated: at speed S = 0 (allowed by "S ≥ 0")
and direction D = 90, the wind vector is (0, 0), `atan2` gives 0, and the
recovered direction is 0 — off from D by a full 90 degrees, beyond any
tolerance. -/
theorem wind_direction_roundtrip_fails_at_zero_speed :
    (0 : ℝ) ≤ 0 ∧ (0 : ℝ) ≤ 90 ∧ (90 : ℝ) < 360 ∧
    recoverDirection (wind_vector 0 90).1 (wind_vector 0 90).2 = 0 ∧
    |recoverDirection (wind_vector 0 90).1 (wind_vector 0 90).2 - 90| = 90 := by
  have h0 : recoverDirection (wind_vector 0 90).1 (wind_vector 0 90).2 = 0 := by
    simp [recoverDirection, wind_vector, atan2, Complex.arg_zero]
  refine ⟨le_refl 0, by norm_num, by norm_num, h0, ?_⟩
  rw [h0]
  norm_num

end WeatherApp
